import Mathlib

/-!
Verification of the Dreamachine stimulus renderer (src/main.rs).

The program state `DreamApp`, the menu click handlers, the per-frame blink
update and the per-frame draw step are translated from the source.  Machine
`f32` values and `Duration`/`Instant` values are read as exact rationals;
timestamps are rational seconds on one monotone clock.
-/

/-- Truncated remainder on rationals, modelling the Rust `%` operator on
`f32` for a nonnegative dividend and a positive divisor (the only uses in
this program), with the floats read as exact rationals. -/
def fmod (a b : ℚ) : ℚ := a - b * ⌊a / b⌋

/-- Rust `Instant::duration_since`, which saturates at zero when the
argument is later than the instant. -/
def durationSince (now earlier : ℚ) : ℚ := max (now - earlier) 0

/-- The `Mode` enum (main.rs lines 9-13). -/
inductive Mode
  | Flash
  | Sweep
  | Lighthouse

/-- The `DreamApp` state struct (main.rs lines 15-37), with `Instant` and
`Duration` fields as rational seconds. -/
structure DreamApp where
  flashing : Bool
  last_toggle : ℚ
  show_white : Bool
  interval : ℚ
  start_stop_text : String
  spin_start : ℚ
  spin_speed : ℚ
  mode : Mode
  sweep_start : ℚ
  beam_width_norm : ℚ
  frequency_hz : ℚ
  sweep_speed : ℚ
  confirm_quit : Bool
  fullscreen : Bool

/-- The `Default` impl (main.rs lines 39-62): all timestamps are the
creation instant `now`. -/
def DreamApp.default (now : ℚ) : DreamApp :=
  { flashing := false
    last_toggle := now
    show_white := false
    frequency_hz := 10
    interval := 1 / 10
    start_stop_text := "Start"
    spin_start := now
    spin_speed := 10
    mode := Mode.Sweep
    sweep_start := now
    beam_width_norm := 2 / 5
    sweep_speed := 10
    confirm_quit := false
    fullscreen := false }

/-- `DreamApp::new` (main.rs lines 64-71): the default state, then
`sweep_speed = frequency_hz` and `interval = 1/frequency_hz`. -/
def DreamApp.new (now : ℚ) : DreamApp :=
  let s := DreamApp.default now
  { s with sweep_speed := s.frequency_hz, interval := 1 / s.frequency_hz }

/-- The File menu Start/Stop button handler (main.rs lines 84-90).  The
label is recomputed from the already-flipped `flashing` value. -/
def clickStartStop (s : DreamApp) (now : ℚ) : DreamApp :=
  { s with
      flashing := !s.flashing
      start_stop_text := if !s.flashing then "Stop" else "Start"
      last_toggle := now
      show_white := false }

/-- The Mode menu Flash button handler (main.rs lines 97-110): sets the
mode and resets `sweep_start`. -/
def clickModeFlash (s : DreamApp) (now : ℚ) : DreamApp :=
  { s with mode := Mode.Flash, sweep_start := now }

/-- The Mode menu Sweep button handler (main.rs lines 111-124): sets the
mode and resets `sweep_start`. -/
def clickModeSweep (s : DreamApp) (now : ℚ) : DreamApp :=
  { s with mode := Mode.Sweep, sweep_start := now }

/-- The Mode menu Lighthouse button handler (main.rs lines 125-138): sets
the mode and resets `spin_start`. -/
def clickModeLighthouse (s : DreamApp) (now : ℚ) : DreamApp :=
  { s with mode := Mode.Lighthouse, spin_start := now }

/-- A Hertz menu button handler (main.rs lines 151-155): sets
`frequency_hz`, `interval = 1/hz` and `sweep_speed = hz`.  The menu offers
`hz` from 8 to 13. -/
def clickHertz (s : DreamApp) (hz : ℚ) : DreamApp :=
  { s with frequency_hz := hz, interval := 1 / hz, sweep_speed := hz }

/-- The per-frame blink update (main.rs lines 178-185): when flashing and
at least `interval` has elapsed since `last_toggle`, flip `show_white` and
set `last_toggle` to the current instant. -/
def blinkStep (s : DreamApp) (now : ℚ) : DreamApp :=
  if s.flashing then
    if s.interval ≤ durationSince now s.last_toggle then
      { s with show_white := !s.show_white, last_toggle := now }
    else s
  else s

/-- State after the k-th blink toggle under continuous evaluation of the
update step: each toggle fires at the first instant where the elapsed time
since `last_toggle` reaches `interval`, namely `last_toggle + interval`. -/
def fireIter (s : DreamApp) : ℕ → DreamApp
  | 0 => s
  | k + 1 =>
      blinkStep (fireIter s k) ((fireIter s k).last_toggle + (fireIter s k).interval)

/-- The beam center in normalized window coordinates computed by the
`Mode::Sweep` draw arm (main.rs lines 224-227).  Note the source reads
`self.spin_start` and `self.spin_speed` here, not `sweep_start` and
`sweep_speed`. -/
def sweepCenterNorm (s : DreamApp) (now : ℚ) : ℚ :=
  let t := durationSince now s.spin_start
  let period := 1 + s.beam_width_norm
  let tmod := fmod (t * s.spin_speed) period
  tmod - s.beam_width_norm * (1 / 2)

/-- The beam center as the specification states it: elapsed time measured
from `sweep_start`, scaled by `sweep_speed`.  Declared only to be compared
with `sweepCenterNorm`, which is translated from the source. -/
def sweepCenterNormSpec (s : DreamApp) (now : ℚ) : ℚ :=
  let t := durationSince now s.sweep_start
  let period := 1 + s.beam_width_norm
  let tmod := fmod (t * s.sweep_speed) period
  tmod - s.beam_width_norm * (1 / 2)

/-- The client rectangle of the window, as `ui.max_rect()` hands it to the
draw step. -/
structure ScreenRect where
  left : ℚ
  top : ℚ
  right : ℚ
  bottom : ℚ

/-- Width of a rectangle, as `egui::Rect::width`. -/
def ScreenRect.width (r : ScreenRect) : ℚ := r.right - r.left

/-- Height of a rectangle, as `egui::Rect::height`. -/
def ScreenRect.height (r : ScreenRect) : ℚ := r.bottom - r.top

/-- The beam pixel width computed by the `Mode::Sweep` arm
(main.rs line 230): `rect.width() * beam_width_norm`. -/
def sweepBeamWidth (s : DreamApp) (r : ScreenRect) : ℚ :=
  r.width * s.beam_width_norm

/-- A `Color32` value as the draw step produces it. -/
inductive PaintColor
  | white
  | black
  | rgba (r g b a : ℕ)

/-- One painter call: a filled axis-aligned rectangle or a convex triangle
(`center`, `p1`, `p2`) as issued by `Shape::convex_polygon`. -/
inductive PaintShape
  | rectFilled (l t r b : ℚ) (c : PaintColor)
  | convexTri (cx cy x1 y1 x2 y2 : ℚ) (c : PaintColor)

/-- The `f32` library operations the Lighthouse arm uses (cosine, sine,
hypot and the TAU constant).  Floating-point transcendentals have no exact
rational translation, so they are abstract parameters of the draw step;
no claim depends on their values. -/
structure FloatOps where
  rcos : ℚ → ℚ
  rsin : ℚ → ℚ
  hypot : ℚ → ℚ → ℚ
  tau : ℚ

/-- The 60 translucent slices of the `Mode::Sweep` arm
(main.rs lines 228-256).  The `as u8` cast of the nonnegative alpha value
truncates, hence the floor. -/
def sweepSlices (s : DreamApp) (now : ℚ) (r : ScreenRect) : List PaintShape :=
  let center_norm := sweepCenterNorm s now
  let cx := r.left + center_norm * r.width
  let beam_w := r.width * s.beam_width_norm
  let half := beam_w * (1 / 2)
  let start_x := cx - half
  let slices : ℕ := 60
  let slice_w := beam_w / (slices : ℚ)
  (List.range slices).map (fun i =>
    let f : ℚ := (i : ℚ) / ((slices : ℚ) - 1)
    let dist := |f - 1 / 2| * 2
    let alpha : ℕ := ((1 - dist) * 255).floor.toNat
    let x0 := start_x + f * (beam_w - slice_w)
    let x1 := x0 + slice_w
    PaintShape.rectFilled x0 r.top x1 r.bottom (PaintColor.rgba 255 255 255 alpha))

/-- The two wedges of the `Mode::Lighthouse` arm (main.rs lines 259-290),
with the `f32` trigonometric operations taken from `ops`. -/
def lighthouseShapes (ops : FloatOps) (s : DreamApp) (now : ℚ) (r : ScreenRect) :
    List PaintShape :=
  let t := durationSince now s.spin_start
  let angle := fmod (t * s.frequency_hz * ops.tau) ops.tau
  let ccx := r.left + r.width * (1 / 2)
  let ccy := r.top + r.height * (1 / 2)
  let radius := ops.hypot r.width r.height * (6 / 10)
  let half_w : ℚ := 3 / 10
  let a1 := angle - half_w
  let a2 := angle + half_w
  let p1x := ccx + ops.rcos a1 * radius
  let p1y := ccy + ops.rsin a1 * radius
  let p2x := ccx + ops.rcos a2 * radius
  let p2y := ccy + ops.rsin a2 * radius
  let hw2 := half_w * (1 / 2)
  let b1x := ccx + ops.rcos (angle - hw2) * radius
  let b1y := ccy + ops.rsin (angle - hw2) * radius
  let b2x := ccx + ops.rcos (angle + hw2) * radius
  let b2y := ccy + ops.rsin (angle + hw2) * radius
  [PaintShape.convexTri ccx ccy p1x p1y p2x p2y (PaintColor.rgba 255 255 255 80),
   PaintShape.convexTri ccx ccy b1x b1y b2x b2y PaintColor.white]

/-- The === DRAW === block (main.rs lines 205-296): the list of painter
calls issued for one frame. -/
def renderFrame (ops : FloatOps) (s : DreamApp) (now : ℚ) (r : ScreenRect) :
    List PaintShape :=
  if s.flashing then
    match s.mode with
    | Mode.Flash =>
        [PaintShape.rectFilled r.left r.top r.right r.bottom
          (if s.show_white then PaintColor.white else PaintColor.black)]
    | Mode.Sweep => sweepSlices s now r
    | Mode.Lighthouse => lighthouseShapes ops s now r
  else
    [PaintShape.rectFilled r.left r.top r.right r.bottom PaintColor.black]

/-- Remainder on the reals, `a - b * floor (a / b)`. -/
noncomputable def rmodR (a b : ℝ) : ℝ := a - b * ⌊a / b⌋

/-- The unwrapped lighthouse phase: elapsed time since `spin_start` times
`frequency_hz` times 2π (main.rs lines 261-263, with the `f32` TAU
constant read as the exact 2π). -/
noncomputable def lighthousePhase (s : DreamApp) (now : ℚ) : ℝ :=
  ((durationSince now s.spin_start : ℚ) : ℝ) * ((s.frequency_hz : ℚ) : ℝ) *
    (2 * Real.pi)

/-- The wedge angle of the `Mode::Lighthouse` arm: the unwrapped phase
reduced modulo 2π. -/
noncomputable def lighthouseAngle (s : DreamApp) (now : ℚ) : ℝ :=
  rmodR (lighthousePhase s now) (2 * Real.pi)

/-- Trivial instantiation of the abstract float operations, used to
evaluate draw steps whose lighthouse branch is not taken. -/
def zeroFloatOps : FloatOps :=
  { rcos := fun _ => 0, rsin := fun _ => 0, hypot := fun _ _ => 0, tau := 0 }

/-- The state reached from a fresh app by selecting 8 Hz in the Hertz
menu: `sweep_speed` becomes 8 while `spin_speed` stays 10. -/
def appAt8Hz : DreamApp := clickHertz (DreamApp.new 0) 8

/-- The state reached from a fresh app by selecting Sweep in the Mode menu
at time 5: `sweep_start` becomes 5 while `spin_start` stays 0. -/
def appSweepAt5 : DreamApp := clickModeSweep (DreamApp.new 0) 5

/-- A fresh app with the stimulus started at time 0. -/
def appRunning : DreamApp := clickStartStop (DreamApp.new 0) 0

/-- C9: In Sweep mode at the 10 Hz rate with beam width 0.4, at elapsed
time t = 0.07 s the beam center normalized position is exactly 1/2 in
rational arithmetic. -/
theorem sweep_scenario_center_half :
    (DreamApp.new 0).beam_width_norm = 2 / 5 ∧
    (DreamApp.new 0).spin_speed = 10 ∧
    sweepCenterNorm (DreamApp.new 0) (7 / 100) = 1 / 2 := by
  refine ⟨rfl, rfl, ?_⟩
  norm_num [sweepCenterNorm, DreamApp.new, DreamApp.default, fmod, durationSince]

/-- C8: Clicking Start/Stop negates `flashing`, resets the blink phase
(`show_white` false, `last_toggle` the click instant) and leaves the mode,
frequency, interval, sweep speed and both start timestamps unchanged. -/
theorem start_stop_click_effect (s : DreamApp) (now : ℚ) :
    (clickStartStop s now).flashing = !s.flashing ∧
    (clickStartStop s now).show_white = false ∧
    (clickStartStop s now).last_toggle = now ∧
    (clickStartStop s now).mode = s.mode ∧
    (clickStartStop s now).frequency_hz = s.frequency_hz ∧
    (clickStartStop s now).interval = s.interval ∧
    (clickStartStop s now).sweep_speed = s.sweep_speed ∧
    (clickStartStop s now).sweep_start = s.sweep_start ∧
    (clickStartStop s now).spin_start = s.spin_start := by
  refine ⟨rfl, rfl, rfl, rfl, rfl, rfl, rfl, rfl, rfl⟩

/-- C3: Clicking any of the six Hertz entries sets `frequency_hz = hz`,
`interval = 1/hz` and `sweep_speed = hz`, so that afterwards
`interval = 1/frequency_hz` and `sweep_speed = frequency_hz` hold
simultaneously. -/
theorem hertz_click_consistent (s : DreamApp) (hz : ℚ)
    (hmem : hz ∈ ({8, 9, 10, 11, 12, 13} : Finset ℚ)) :
    (clickHertz s hz).frequency_hz = hz ∧
    (clickHertz s hz).interval = 1 / hz ∧
    (clickHertz s hz).sweep_speed = hz ∧
    (clickHertz s hz).interval = 1 / (clickHertz s hz).frequency_hz ∧
    (clickHertz s hz).sweep_speed = (clickHertz s hz).frequency_hz := by
  refine ⟨rfl, rfl, rfl, rfl, rfl⟩

/-- Witness for C3 at hz = 8 on a fresh app. -/
theorem hertz_click_consistent_witness :
    (8 : ℚ) ∈ ({8, 9, 10, 11, 12, 13} : Finset ℚ) ∧
    ((clickHertz (DreamApp.new 0) 8).frequency_hz = 8 ∧
     (clickHertz (DreamApp.new 0) 8).interval = 1 / 8 ∧
     (clickHertz (DreamApp.new 0) 8).sweep_speed = 8 ∧
     (clickHertz (DreamApp.new 0) 8).interval =
       1 / (clickHertz (DreamApp.new 0) 8).frequency_hz ∧
     (clickHertz (DreamApp.new 0) 8).sweep_speed =
       (clickHertz (DreamApp.new 0) 8).frequency_hz) :=
  ⟨by decide, hertz_click_consistent (DreamApp.new 0) 8 (by decide)⟩

/-- C10: Clicking a frequency entry changes only `frequency_hz`,
`interval` and `sweep_speed`: every other field of the state is
unchanged, so no phase origin and no blink phase is reset. -/
theorem hertz_click_frame_effect (s : DreamApp) (hz : ℚ) :
    (clickHertz s hz).last_toggle = s.last_toggle ∧
    (clickHertz s hz).sweep_start = s.sweep_start ∧
    (clickHertz s hz).spin_start = s.spin_start ∧
    (clickHertz s hz).show_white = s.show_white ∧
    (clickHertz s hz).flashing = s.flashing ∧
    (clickHertz s hz).mode = s.mode ∧
    (clickHertz s hz).spin_speed = s.spin_speed ∧
    (clickHertz s hz).beam_width_norm = s.beam_width_norm ∧
    (clickHertz s hz).start_stop_text = s.start_stop_text ∧
    (clickHertz s hz).confirm_quit = s.confirm_quit ∧
    (clickHertz s hz).fullscreen = s.fullscreen := by
  refine ⟨rfl, rfl, rfl, rfl, rfl, rfl, rfl, rfl, rfl, rfl, rfl⟩

/-- C1: The Sweep draw arm reads `spin_start` and `spin_speed`, not the
`sweep_start` and `sweep_speed` fields the specification names: after
selecting 8 Hz (so `sweep_speed = 8` but `spin_speed = 10`), the rendered
center at t = 1/20 s is 3/10 while the specified formula gives 1/5. -/
theorem sweep_reads_spin_fields :
    appAt8Hz.sweep_speed = 8 ∧ appAt8Hz.spin_speed = 10 ∧
    sweepCenterNorm appAt8Hz (1 / 20) = 3 / 10 ∧
    sweepCenterNormSpec appAt8Hz (1 / 20) = 1 / 5 ∧
    sweepCenterNorm appAt8Hz (1 / 20) ≠ sweepCenterNormSpec appAt8Hz (1 / 20) := by
  refine ⟨rfl, rfl, ?_, ?_, ?_⟩ <;>
    norm_num [sweepCenterNorm, sweepCenterNormSpec, appAt8Hz, clickHertz,
      DreamApp.new, DreamApp.default, fmod, durationSince]

/-- C4: After selecting 8 Hz, the specified period
(1 + beam_width_norm) / sweep_speed = 7/40 is not a period of the rendered
beam center, because the draw arm divides by `spin_speed = 10` instead:
the center at t = 7/40 differs from the center at t = 0. -/
theorem sweep_period_not_from_hertz :
    appAt8Hz.sweep_speed = 8 ∧
    (1 + appAt8Hz.beam_width_norm) / appAt8Hz.sweep_speed = 7 / 40 ∧
    sweepCenterNorm appAt8Hz 0 = -(1 / 5) ∧
    sweepCenterNorm appAt8Hz (7 / 40) = 3 / 20 ∧
    sweepCenterNorm appAt8Hz (0 + (1 + appAt8Hz.beam_width_norm) / appAt8Hz.sweep_speed) ≠
      sweepCenterNorm appAt8Hz 0 := by
  refine ⟨rfl, by norm_num [appAt8Hz, clickHertz, DreamApp.new, DreamApp.default], ?_, ?_, ?_⟩ <;>
    norm_num [sweepCenterNorm, appAt8Hz, clickHertz,
      DreamApp.new, DreamApp.default, fmod, durationSince]

/-- C2 fails as stated: selecting Sweep at time 5 resets `sweep_start`,
but the Sweep draw arm reads `spin_start`, which keeps its old value 0, so
immediately after the switch the pattern is not at phase 0: the phase-0
center would be -beam_width_norm/2 = -1/5, the rendered center is 4/5. -/
theorem mode_switch_reset_cex :
    appSweepAt5.sweep_start = 5 ∧ appSweepAt5.spin_start = 0 ∧
    sweepCenterNorm appSweepAt5 5 = 4 / 5 ∧
    sweepCenterNorm appSweepAt5 5 ≠ 0 - appSweepAt5.beam_width_norm * (1 / 2) := by
  refine ⟨rfl, rfl, ?_, ?_⟩ <;>
    norm_num [sweepCenterNorm, appSweepAt5, clickModeSweep, DreamApp.new,
      DreamApp.default, fmod, durationSince]

/-- C2 amended: selecting Lighthouse resets `spin_start`, which its
renderer reads, so the lighthouse phase at the switch instant is 0;
selecting Flash or Sweep resets only `sweep_start`, which no renderer
reads, so the sweep geometry and the blink phase are unchanged. -/
theorem mode_switch_reset_amended (s : DreamApp) (now tq : ℚ) :
    (clickModeLighthouse s now).spin_start = now ∧
    lighthouseAngle (clickModeLighthouse s now) now = 0 ∧
    (clickModeSweep s now).sweep_start = now ∧
    (clickModeSweep s now).spin_start = s.spin_start ∧
    sweepCenterNorm (clickModeSweep s now) tq = sweepCenterNorm s tq ∧
    (clickModeFlash s now).sweep_start = now ∧
    (clickModeFlash s now).last_toggle = s.last_toggle ∧
    (clickModeFlash s now).show_white = s.show_white ∧
    (blinkStep (clickModeFlash s now) tq).show_white = (blinkStep s tq).show_white := by
  refine ⟨rfl, ?_, rfl, rfl, rfl, rfl, rfl, rfl, ?_⟩
  · simp [lighthouseAngle, lighthousePhase, rmodR, durationSince, clickModeLighthouse]
  · simp only [blinkStep, clickModeFlash]
    split
    · split
      · rfl
      · rfl
    · rfl

theorem blinkStep_keeps_config (s : DreamApp) (now : ℚ) :
    (blinkStep s now).flashing = s.flashing ∧ (blinkStep s now).interval = s.interval := by
  unfold blinkStep
  split
  · split
    · exact ⟨rfl, rfl⟩
    · exact ⟨rfl, rfl⟩
  · exact ⟨rfl, rfl⟩

theorem blinkStep_fire (s : DreamApp) (hfl : s.flashing = true) (hq : 0 ≤ s.interval) :
    blinkStep s (s.last_toggle + s.interval) =
      { s with show_white := !s.show_white, last_toggle := s.last_toggle + s.interval } := by
  have hcond : s.interval ≤ durationSince (s.last_toggle + s.interval) s.last_toggle := by
    unfold durationSince
    rw [add_sub_cancel_left]
    exact le_max_left _ _
  simp [blinkStep, hfl, hcond]

theorem blinkStep_no_fire (s : DreamApp) (now : ℚ) (hq : 0 < s.interval)
    (h : now < s.last_toggle + s.interval) : blinkStep s now = s := by
  have hcond : durationSince now s.last_toggle < s.interval := by
    unfold durationSince
    exact max_lt (by linarith) hq
  unfold blinkStep
  split
  · rw [if_neg (not_le.mpr hcond)]
  · rfl

theorem fireIter_spec (s : DreamApp) (hfl : s.flashing = true)
    (hq : 0 ≤ s.interval) (k : ℕ) :
    (fireIter s k).flashing = true ∧
    (fireIter s k).interval = s.interval ∧
    (fireIter s k).last_toggle = s.last_toggle + k * s.interval ∧
    (fireIter s k).show_white = (if k % 2 = 0 then s.show_white else !s.show_white) := by
  induction k with
  | zero => exact ⟨hfl, rfl, by simp [fireIter], by simp [fireIter]⟩
  | succ n ih =>
    obtain ⟨h1, h2, h3, h4⟩ := ih
    have hfire := blinkStep_fire (fireIter s n) h1 (h2 ▸ hq)
    simp only [fireIter, hfire]
    refine ⟨h1, h2, ?_, ?_⟩
    · show (fireIter s n).last_toggle + (fireIter s n).interval =
        s.last_toggle + ((n + 1 : ℕ) : ℚ) * s.interval
      rw [h3, h2]
      push_cast
      ring
    · show (!(fireIter s n).show_white) = _
      rw [h4]
      rcases Nat.mod_two_eq_zero_or_one n with h | h <;>
        simp [Nat.add_mod, h, Bool.not_not]

theorem floor_add_floor_bound (a b : ℚ) :
    ⌊a + b⌋ - ⌊a⌋ = ⌊b⌋ ∨ ⌊a + b⌋ - ⌊a⌋ = ⌊b⌋ + 1 := by
  have h1 : ⌊a⌋ + ⌊b⌋ ≤ ⌊a + b⌋ := by
    apply Int.le_floor.mpr
    push_cast
    exact add_le_add (Int.floor_le a) (Int.floor_le b)
  have h2 : ⌊a + b⌋ < ⌊a⌋ + ⌊b⌋ + 2 := by
    apply Int.floor_lt.mpr
    push_cast
    have ha := Int.lt_floor_add_one a
    have hb := Int.lt_floor_add_one b
    linarith
  omega

theorem toggle_mem_Ioc (q w D : ℚ) (hq : 0 < q) (k : ℤ) :
    (w < k * q ∧ k * q ≤ w + D) ↔ k ∈ Finset.Ioc ⌊w / q⌋ ⌊(w + D) / q⌋ := by
  rw [Finset.mem_Ioc, Int.floor_lt, Int.le_floor]
  constructor
  · rintro ⟨h1, h2⟩
    exact ⟨(div_lt_iff₀ hq).mpr h1, (le_div_iff₀ hq).mpr h2⟩
  · rintro ⟨h1, h2⟩
    exact ⟨(div_lt_iff₀ hq).mp h1, (le_div_iff₀ hq).mp h2⟩

/-- C5: Under continuous evaluation of the blink update while flashing, no
toggle fires strictly before one `interval` has elapsed since
`last_toggle`; the k-th toggle happens exactly at `last_toggle +
k * interval` and flips `show_white` according to the parity of k; the
toggle instants falling in a window of duration D are exactly the integers
in `Ioc ⌊w/interval⌋ ⌊(w+D)/interval⌋`, whose number differs from
`⌊D/interval⌋` by at most one. -/
theorem blink_toggle_schedule (s : DreamApp) (hfl : s.flashing = true)
    (hq : 0 < s.interval) (w D : ℚ) (hD : 0 ≤ D) :
    (∀ now, now < s.last_toggle + s.interval → blinkStep s now = s) ∧
    (∀ k : ℕ, (fireIter s k).last_toggle = s.last_toggle + k * s.interval) ∧
    (∀ k : ℕ, (fireIter s k).show_white =
      (if k % 2 = 0 then s.show_white else !s.show_white)) ∧
    (∀ k : ℤ, (w < k * s.interval ∧ k * s.interval ≤ w + D) ↔
      k ∈ Finset.Ioc ⌊w / s.interval⌋ ⌊(w + D) / s.interval⌋) ∧
    ((Finset.Ioc ⌊w / s.interval⌋ ⌊(w + D) / s.interval⌋).card : ℤ) =
      ⌊(w + D) / s.interval⌋ - ⌊w / s.interval⌋ ∧
    (⌊(w + D) / s.interval⌋ - ⌊w / s.interval⌋ = ⌊D / s.interval⌋ ∨
     ⌊(w + D) / s.interval⌋ - ⌊w / s.interval⌋ = ⌊D / s.interval⌋ + 1) := by
  refine ⟨fun now h => blinkStep_no_fire s now hq h,
    fun k => (fireIter_spec s hfl (le_of_lt hq) k).2.2.1,
    fun k => (fireIter_spec s hfl (le_of_lt hq) k).2.2.2,
    fun k => toggle_mem_Ioc s.interval w D hq k, ?_, ?_⟩
  · have hmono : w / s.interval ≤ (w + D) / s.interval := by
      rw [div_le_div_iff hq hq]
      nlinarith [mul_nonneg hD (le_of_lt hq)]
    rw [Int.card_Ioc]
    exact Int.toNat_of_nonneg (sub_nonneg.mpr (Int.floor_mono hmono))
  · have h := floor_add_floor_bound (w / s.interval) (D / s.interval)
    rw [div_add_div_same] at h
    exact h

/-- Witness for C5: the started fresh app (interval 1/10) over the window
from 0 of duration 0.35, matching the 350 ms scenario. -/
theorem blink_toggle_schedule_witness :
    appRunning.flashing = true ∧ 0 < appRunning.interval ∧ (0 : ℚ) ≤ 7 / 20 ∧
    ((∀ now, now < appRunning.last_toggle + appRunning.interval →
        blinkStep appRunning now = appRunning) ∧
     (∀ k : ℕ, (fireIter appRunning k).last_toggle =
        appRunning.last_toggle + k * appRunning.interval) ∧
     (∀ k : ℕ, (fireIter appRunning k).show_white =
        (if k % 2 = 0 then appRunning.show_white else !appRunning.show_white)) ∧
     (∀ k : ℤ, ((0 : ℚ) < k * appRunning.interval ∧
          k * appRunning.interval ≤ 0 + 7 / 20) ↔
        k ∈ Finset.Ioc ⌊(0 : ℚ) / appRunning.interval⌋
            ⌊((0 : ℚ) + 7 / 20) / appRunning.interval⌋) ∧
     ((Finset.Ioc ⌊(0 : ℚ) / appRunning.interval⌋
          ⌊((0 : ℚ) + 7 / 20) / appRunning.interval⌋).card : ℤ) =
        ⌊((0 : ℚ) + 7 / 20) / appRunning.interval⌋ -
          ⌊(0 : ℚ) / appRunning.interval⌋ ∧
     (⌊((0 : ℚ) + 7 / 20) / appRunning.interval⌋ - ⌊(0 : ℚ) / appRunning.interval⌋ =
        ⌊(7 : ℚ) / 20 / appRunning.interval⌋ ∨
      ⌊((0 : ℚ) + 7 / 20) / appRunning.interval⌋ - ⌊(0 : ℚ) / appRunning.interval⌋ =
        ⌊(7 : ℚ) / 20 / appRunning.interval⌋ + 1)) :=
  ⟨rfl, by norm_num [appRunning, clickStartStop, DreamApp.new, DreamApp.default],
   by norm_num,
   blink_toggle_schedule appRunning rfl
     (by norm_num [appRunning, clickStartStop, DreamApp.new, DreamApp.default]) 0
     (7 / 20) (by norm_num)⟩

theorem rmodR_add_right (a b : ℝ) (hb : b ≠ 0) : rmodR (a + b) b = rmodR a b := by
  unfold rmodR
  rw [add_div, div_self hb, Int.floor_add_one]
  push_cast
  ring

/-- C6: While flashing in Lighthouse mode the wedge angle is the unwrapped
phase (elapsed time since `spin_start`, times `frequency_hz`, times 2π)
reduced modulo 2π; the unwrapped phase is strictly increasing in time, and
the angle completes one full revolution every `1/frequency_hz` seconds. -/
theorem lighthouse_rotation (s : DreamApp) (hf : 0 < s.frequency_hz)
    (now t1 t2 : ℚ) (hnow : s.spin_start ≤ now) (ht1 : s.spin_start ≤ t1)
    (h12 : t1 < t2) :
    lighthouseAngle s now = rmodR (lighthousePhase s now) (2 * Real.pi) ∧
    lighthousePhase s t1 < lighthousePhase s t2 ∧
    lighthouseAngle s (now + 1 / s.frequency_hz) = lighthouseAngle s now := by
  have hfR : (0 : ℝ) < ((s.frequency_hz : ℚ) : ℝ) := by exact_mod_cast hf
  have hpi : (0 : ℝ) < 2 * Real.pi := by positivity
  refine ⟨rfl, ?_, ?_⟩
  · unfold lighthousePhase
    have hd1 : durationSince t1 s.spin_start = t1 - s.spin_start := by
      unfold durationSince
      exact max_eq_left (by linarith)
    have hd2 : durationSince t2 s.spin_start = t2 - s.spin_start := by
      unfold durationSince
      exact max_eq_left (by linarith)
    rw [hd1, hd2]
    have hlt : ((t1 - s.spin_start : ℚ) : ℝ) < ((t2 - s.spin_start : ℚ) : ℝ) := by
      exact_mod_cast sub_lt_sub_right h12 s.spin_start
    exact mul_lt_mul_of_pos_right (mul_lt_mul_of_pos_right hlt hfR) hpi
  · have h1f : 0 < 1 / s.frequency_hz := by positivity
    have hd : durationSince (now + 1 / s.frequency_hz) s.spin_start =
        durationSince now s.spin_start + 1 / s.frequency_hz := by
      unfold durationSince
      rw [max_eq_left (by linarith), max_eq_left (by linarith)]
      ring
    unfold lighthouseAngle lighthousePhase
    rw [hd]
    have hfRne : ((s.frequency_hz : ℚ) : ℝ) ≠ 0 := ne_of_gt hfR
    have hsplit : ((durationSince now s.spin_start + 1 / s.frequency_hz : ℚ) : ℝ) *
        ((s.frequency_hz : ℚ) : ℝ) * (2 * Real.pi) =
        ((durationSince now s.spin_start : ℚ) : ℝ) * ((s.frequency_hz : ℚ) : ℝ) *
          (2 * Real.pi) + 2 * Real.pi := by
      push_cast
      field_simp
      ring
    rw [hsplit, rmodR_add_right _ _ (ne_of_gt hpi)]

/-- Witness for C6: the fresh app (frequency 10, spin epoch 0) at times
1, 0 and 1. -/
theorem lighthouse_rotation_witness :
    0 < (DreamApp.new 0).frequency_hz ∧
    (DreamApp.new 0).spin_start ≤ 1 ∧ (DreamApp.new 0).spin_start ≤ 0 ∧
    ((0 : ℚ) < 1) ∧
    (lighthouseAngle (DreamApp.new 0) 1 =
        rmodR (lighthousePhase (DreamApp.new 0) 1) (2 * Real.pi) ∧
     lighthousePhase (DreamApp.new 0) 0 < lighthousePhase (DreamApp.new 0) 1 ∧
     lighthouseAngle (DreamApp.new 0) (1 + 1 / (DreamApp.new 0).frequency_hz) =
        lighthouseAngle (DreamApp.new 0) 1) :=
  ⟨by decide, by decide, by decide, by decide,
   lighthouse_rotation (DreamApp.new 0) (by decide) 1 0 1 (by decide) (by decide)
     (by decide)⟩

/-- C7: Whenever `flashing` is false the draw step issues exactly one
painter call, filling the whole frame rectangle with black, in every mode
and at every time. -/
theorem idle_frame_black (ops : FloatOps) (s : DreamApp) (now : ℚ) (r : ScreenRect)
    (h : s.flashing = false) :
    renderFrame ops s now r =
      [PaintShape.rectFilled r.left r.top r.right r.bottom PaintColor.black] := by
  unfold renderFrame
  rw [h]
  rfl

/-- Witness for C7: the fresh app is not flashing, so the frame is one
black rectangle. -/
theorem idle_frame_black_witness :
    (DreamApp.new 0).flashing = false ∧
    renderFrame zeroFloatOps (DreamApp.new 0) 3 ⟨0, 0, 100, 100⟩ =
      [PaintShape.rectFilled 0 0 100 100 PaintColor.black] :=
  ⟨rfl, idle_frame_black zeroFloatOps (DreamApp.new 0) 3 ⟨0, 0, 100, 100⟩ rfl⟩
